import Mathlib

/-!
Verification development for the real-time avatar conversation agent
(`packages/backend/avatar_agent`): `avatar_config.py`, `beyond_presence.py`
and `video_agent.py`.  Every definition below is a shallow embedding of the
corresponding Python declaration; times are rationals (seconds, as produced
by `time.time()`), machine floats in the source carry only small decimal
constants, which rationals represent exactly.
-/

namespace AvatarAgent

/-- Embedding of `avatar_config.EmotionalExpression` (enum). -/
inductive EmotionalExpression
  | SUPPORTIVE
  | CONCERNED
  | ENCOURAGING
  | NEUTRAL_LISTENING
deriving DecidableEq

/-- Facial parameters of an expression preset (`facial_config` dict). -/
structure FacialConfig where
  smile_intensity : ℚ
  eye_openness : ℚ
  eyebrow_position : ℚ
  head_tilt : ℚ
deriving DecidableEq

/-- Body-language parameters of an expression preset (`body_language` dict). -/
structure BodyLanguage where
  posture : String
  lean_forward : ℚ
  hand_gestures : String
deriving DecidableEq

/-- Animation parameters of an expression preset (`animation` dict). -/
structure AnimationConfig where
  nodding_frequency : ℚ
  micro_expressions : Bool
deriving DecidableEq

/-- One entry of `EXPRESSION_PRESETS`. -/
structure ExpressionPreset where
  name : String
  facial_config : FacialConfig
  body_language : BodyLanguage
  animation : AnimationConfig
deriving DecidableEq

/-- Embedding of `avatar_config.EXPRESSION_PRESETS`.  The Python dict has one
entry per enum member, so the embedding is a total function (exhaustive
match). -/
def EXPRESSION_PRESETS : EmotionalExpression → ExpressionPreset
  | .SUPPORTIVE =>
    { name := "Supportive"
      facial_config := { smile_intensity := 0.5, eye_openness := 0.75,
                         eyebrow_position := 0.2, head_tilt := 3 }
      body_language := { posture := "open", lean_forward := 2,
                         hand_gestures := "minimal" }
      animation := { nodding_frequency := 0.15, micro_expressions := true } }
  | .CONCERNED =>
    { name := "Concerned"
      facial_config := { smile_intensity := 0.0, eye_openness := 0.85,
                         eyebrow_position := -0.3, head_tilt := 0 }
      body_language := { posture := "attentive", lean_forward := 5,
                         hand_gestures := "minimal" }
      animation := { nodding_frequency := 0.0, micro_expressions := true } }
  | .ENCOURAGING =>
    { name := "Encouraging"
      facial_config := { smile_intensity := 0.8, eye_openness := 0.9,
                         eyebrow_position := 0.4, head_tilt := 0 }
      body_language := { posture := "open", lean_forward := 1,
                         hand_gestures := "moderate" }
      animation := { nodding_frequency := 0.2, micro_expressions := true } }
  | .NEUTRAL_LISTENING =>
    { name := "Neutral Listening"
      facial_config := { smile_intensity := 0.2, eye_openness := 0.7,
                         eyebrow_position := 0.0, head_tilt := 0 }
      body_language := { posture := "neutral", lean_forward := 0,
                         hand_gestures := "minimal" }
      animation := { nodding_frequency := 0.05, micro_expressions := false } }

/-- Embedding of `avatar_config.TRANSITION_CONFIG`. -/
structure TransitionConfig where
  duration_ms : ℚ
  easing : String
  min_interval_ms : ℚ
deriving DecidableEq

def TRANSITION_CONFIG : TransitionConfig :=
  { duration_ms := 400, easing := "ease-in-out", min_interval_ms := 3000 }

/-- Embedding of `avatar_config.QUALITY_ADAPTATION_CONFIG`. -/
structure QualityAdaptationConfig where
  bitrate_threshold_low : ℚ
  fps_threshold_low : ℚ
  reduce_secondary_animations : Bool
  prioritize_lip_sync : Bool
deriving DecidableEq

def QUALITY_ADAPTATION_CONFIG : QualityAdaptationConfig :=
  { bitrate_threshold_low := 500, fps_threshold_low := 20,
    reduce_secondary_animations := true, prioritize_lip_sync := true }

/-- Embedding of `avatar_config.CRISIS_KEYWORDS`. -/
def CRISIS_KEYWORDS : List String :=
  ["suicide", "suicidal", "kill myself", "end it all",
   "hurt myself", "self-harm", "don\x27t want to live",
   "no reason to live", "better off dead", "want to die"]

/-- Embedding of `avatar_config.POSITIVE_KEYWORDS`. -/
def POSITIVE_KEYWORDS : List String :=
  ["better", "improving", "good", "progress", "proud",
   "accomplished", "success", "happy", "grateful",
   "breakthrough", "healing", "growing"]

/-- Python's `needle in hay` on lists: `needle` occurs as a contiguous
sublist of `hay`. -/
def containsList [BEq α] (needle : List α) : List α → Bool
  | [] => needle.isEmpty
  | a :: t => List.isPrefixOf needle (a :: t) || containsList needle t

/-- Python's `str.lower()` restricted to the ASCII range (the only range the
agent's keyword corpus uses): lower-case every character. -/
def strLower (s : String) : String := String.mk (s.data.map Char.toLower)

/-- Python's substring operator `needle in hay` on strings. -/
def containsSub (hay needle : String) : Bool := containsList needle.data hay.data

/-- The classification decision of
`BeyondPresenceAvatarAgent.analyze_sentiment_and_express`
(`video_agent.py` lines 270-288): crisis keywords first, then positive
keywords, otherwise supportive.  The value returned is the expression the
method requests for the utterance. -/
def classify_sentiment (text : String) : EmotionalExpression :=
  let text_lower := strLower text
  if CRISIS_KEYWORDS.any (fun keyword => containsSub text_lower keyword) then
    .CONCERNED
  else if POSITIVE_KEYWORDS.any (fun keyword => containsSub text_lower keyword) then
    .ENCOURAGING
  else
    .SUPPORTIVE

/-- State of the mock `beyond_presence.AvatarSession` (the fields the
methods read or write: `connected`, `animation_quality`). -/
structure AvatarSessionState where
  connected : Bool
  animation_quality : String
deriving DecidableEq

/-- The six-field dict returned by `AvatarSession.get_stats`, as consumed by
the quality monitor through `dict.get` with defaults; fields are optional
because a stats dict may lack keys. -/
structure VideoStats where
  bitrate_kbps : Option ℚ
  fps : Option ℚ
  resolution : Option String
  packet_loss : Option ℚ
  jitter_ms : Option ℚ
  latency_ms : Option ℚ
deriving DecidableEq

namespace AvatarSession

/-- `AvatarSession.connect`: sets `connected = True`. -/
def connect (s : AvatarSessionState) : AvatarSessionState :=
  { s with connected := true }

/-- `AvatarSession.set_expression`: raises `RuntimeError("Avatar session not
connected")` before doing any rendering work when not connected; otherwise
simulates the transition (no session-state mutation). -/
def set_expression (s : AvatarSessionState) : Except String Unit :=
  if s.connected = false then .error "Avatar session not connected"
  else .ok ()

/-- `AvatarSession.speak`: raises the same `RuntimeError` before any
rendering work when not connected; otherwise simulates playback (no
session-state mutation). -/
def speak (s : AvatarSessionState) : Except String Unit :=
  if s.connected = false then .error "Avatar session not connected"
  else .ok ()

/-- `AvatarSession.get_stats`: the mock returns fixed statistics. -/
def get_stats (_ : AvatarSessionState) : VideoStats :=
  { bitrate_kbps := some 1500, fps := some 30, resolution := some "720p",
    packet_loss := some 0.02, jitter_ms := some 15, latency_ms := some 45 }

/-- `AvatarSession.set_animation_quality`: raises `ValueError` on an invalid
level, otherwise records the new quality. -/
def set_animation_quality (s : AvatarSessionState) (quality : String) :
    Except String AvatarSessionState :=
  if quality ∈ ["high", "medium", "low"] then
    .ok { s with animation_quality := quality }
  else
    .error ("Invalid quality level: " ++ quality)

/-- `AvatarSession.disconnect`: sets `connected = False`; idempotent. -/
def disconnect (s : AvatarSessionState) : AvatarSessionState :=
  { s with connected := false }

end AvatarSession

/-- The operations a caller can perform on a live `AvatarSession` between
`connect()` and `disconnect()`. -/
inductive SessionOp
  | set_expr
  | speak_op
  | get_stats_op
  | set_anim_quality (quality : String)
  | disconnect_op
deriving DecidableEq

/-- Effect of one session operation on the session state.  `set_expression`
and `speak` never mutate the state (they either raise before any work or
only simulate rendering); a `set_animation_quality` failure raises before
the assignment, leaving the state unchanged. -/
def applyOp (s : AvatarSessionState) : SessionOp → AvatarSessionState
  | .set_expr => s
  | .speak_op => s
  | .get_stats_op => s
  | .set_anim_quality q =>
    match AvatarSession.set_animation_quality s q with
    | .ok s' => s'
    | .error _ => s
  | .disconnect_op => AvatarSession.disconnect s

def runOps (s : AvatarSessionState) (ops : List SessionOp) : AvatarSessionState :=
  ops.foldl applyOp s

namespace Agent

/-- The expression-controller fields of `BeyondPresenceAvatarAgent`:
`current_expression` and `last_expression_change` (seconds, from
`time.time()`). -/
structure ControllerState where
  current_expression : EmotionalExpression
  last_expression_change : ℚ
deriving DecidableEq

/-- `min_interval = TRANSITION_CONFIG["min_interval_ms"] / 1000.0` (seconds). -/
def min_interval : ℚ := TRANSITION_CONFIG.min_interval_ms / 1000

/-- Embedding of `BeyondPresenceAvatarAgent.set_expression`
(`video_agent.py` lines 243-268).  `has_session` is whether
`self.avatar_session` is set, `connected` the session's connected flag,
`current_time` the value of `time.time()` at the call.  The result carries
the controller state after the call and whether
`avatar_session.set_expression` (the rendering call) was performed;
`.error` models the `RuntimeError` escaping when the session is not
connected (in which case the two assignments are never reached). -/
def set_expression (has_session connected : Bool) (st : ControllerState)
    (expression : EmotionalExpression) (current_time : ℚ) :
    Except String (ControllerState × Bool) :=
  if has_session = false then .ok (st, false)
  else if current_time - st.last_expression_change < min_interval then .ok (st, false)
  else if connected = false then .error "Avatar session not connected"
  else .ok ({ current_expression := expression,
              last_expression_change := current_time }, true)

/-- One iteration body of
`BeyondPresenceAvatarAgent.monitor_video_quality` (`video_agent.py` lines
290-326), given the stats fetched this tick: reads `bitrate_kbps` and `fps`
with defaults 2000 and 30, degrades to `"low"` when either is below its
threshold (guarded by `reduce_secondary_animations`), otherwise restores
`"high"`.  A `set_animation_quality` failure is caught by the loop's
`except Exception` and leaves the session state unchanged. -/
def monitor_tick (stats : VideoStats) (s : AvatarSessionState) : AvatarSessionState :=
  let bitrate := stats.bitrate_kbps.getD 2000
  let fps := stats.fps.getD 30
  if bitrate < QUALITY_ADAPTATION_CONFIG.bitrate_threshold_low ∨
     fps < QUALITY_ADAPTATION_CONFIG.fps_threshold_low then
    if QUALITY_ADAPTATION_CONFIG.reduce_secondary_animations then
      match AvatarSession.set_animation_quality s "low" with
      | .ok s' => s'
      | .error _ => s
    else s
  else
    match AvatarSession.set_animation_quality s "high" with
    | .ok s' => s'
    | .error _ => s

end Agent

/-- The environment values read by `BeyondPresenceAvatarAgent.__init__`
(`os.getenv`: `none` when the variable is absent, `some ""` when set but
empty).  `COUNSELOR_CATEGORY` has a default and is not validated, so it is
omitted from the required set below exactly as in the source. -/
structure AgentConfig where
  room_name : Option String
  session_id : Option String
  avatar_id : Option String
  avatar_api_key : Option String
  system_prompt : Option String
  livekit_url : Option String
  livekit_api_key : Option String
  livekit_api_secret : Option String
  google_api_key : Option String
deriving DecidableEq

namespace Agent

/-- The `required_vars` dict of
`BeyondPresenceAvatarAgent._validate_config` (`video_agent.py` lines
73-89), in source order. -/
def required_vars (c : AgentConfig) : List (String × Option String) :=
  [("ROOM_NAME", c.room_name),
   ("SESSION_ID", c.session_id),
   ("AVATAR_ID", c.avatar_id),
   ("BEY_AVATAR_API_KEY", c.avatar_api_key),
   ("SYSTEM_PROMPT", c.system_prompt),
   ("LIVEKIT_URL", c.livekit_url),
   ("LIVEKIT_API_KEY", c.livekit_api_key),
   ("LIVEKIT_API_SECRET", c.livekit_api_secret),
   ("GOOGLE_API_KEY", c.google_api_key)]

/-- Python truth test `not value` on an optional string: true for `None`
and for the empty string. -/
def falsy : Option String → Bool
  | none => true
  | some s => s.isEmpty

/-- The `missing` list comprehension of `_validate_config`: the keys of
every required variable whose value is falsy. -/
def missing_vars (c : AgentConfig) : List String :=
  ((required_vars c).filter (fun kv => falsy kv.2)).map Prod.fst

/-- Python's `", ".join(missing)`. -/
def joinComma : List String → String
  | [] => ""
  | [x] => x
  | x :: y :: t => x ++ ", " ++ joinComma (y :: t)

/-- Embedding of `_validate_config`: raises `ValueError` naming every
missing variable when `missing` is non-empty, returns normally otherwise. -/
def validate_config (c : AgentConfig) : Except String Unit :=
  if missing_vars c = [] then .ok ()
  else .error ("Missing required environment variables: " ++
               joinComma (missing_vars c))

/-- One `(role, content)` entry of `self.conversation_history`. -/
structure Turn where
  role : String
  content : String
deriving DecidableEq

/-- The fixed apologetic reply returned by `_get_gemini_response` when the
generation call raises (`video_agent.py` line 224). -/
def FALLBACK_REPLY : String :=
  "I apologize, I\x27m having trouble processing that right now. Could you please rephrase?"

/-- The `full_message` built by `_get_gemini_response`: the system prompt is
prefixed exactly when the conversation history is empty. -/
def full_message (system_prompt : String) (history : List Turn)
    (message : String) : String :=
  if history.length = 0 then system_prompt ++ "\n\nStudent: " ++ message
  else "Student: " ++ message

/-- Embedding of `BeyondPresenceAvatarAgent._get_gemini_response`
(`video_agent.py` lines 200-224).  `gen` is the external text-generation
capability (`self.chat.send_message`); `.error` is a raised exception.  The
user turn is appended before the generation call, inside the `try` block;
on failure the handler returns the fallback without appending an assistant
turn.  The result is the history after the call and the returned reply. -/
def get_gemini_response (gen : String → Except String String)
    (system_prompt : String) (history : List Turn) (message : String) :
    List Turn × String :=
  let history1 := history ++ [{ role := "user", content := message }]
  match gen (full_message system_prompt history message) with
  | .ok response_text =>
    (history1 ++ [{ role := "assistant", content := response_text }], response_text)
  | .error _ => (history1, FALLBACK_REPLY)

end Agent

/-- The conversation-lifecycle states of the orchestrator as named by the
specification; the agent's `run`/`main` control flow realises them. -/
inductive LifecycleState
  | Initializing
  | Connecting
  | Greeting
  | Conversing
  | Disconnecting
  | Terminated
deriving DecidableEq

structure OrchestratorState where
  lifecycle : LifecycleState
  history : List Agent.Turn
deriving DecidableEq

namespace Agent

/-- One participant turn handled while the orchestrator is `Conversing`:
generate a reply from the utterance via `_get_gemini_response` and record
the updated history.  The value is `Except` because an exception escaping
the turn body would abort `run`; `_get_gemini_response` traps generation
errors internally, so the turn itself never raises. -/
def conversing_turn (gen : String → Except String String)
    (system_prompt : String) (st : OrchestratorState) (utterance : String) :
    Except String (OrchestratorState × String) :=
  let r := get_gemini_response gen system_prompt st.history utterance
  .ok ({ st with history := r.1 }, r.2)

/-- Lifecycle after a turn: an exception escaping the turn sends `run` to
its handler and `cleanup`, i.e. to `Terminated`; a normal return leaves the
loop running in the state the turn produced. -/
def lifecycle_after (res : Except String (OrchestratorState × String)) :
    LifecycleState :=
  match res with
  | .ok p => p.1.lifecycle
  | .error _ => .Terminated

/-- The three teardown steps of `BeyondPresenceAvatarAgent.cleanup`
(`video_agent.py` lines 379-399), in source order. -/
inductive TeardownStep
  | cancel_monitor
  | avatar_disconnect
  | room_disconnect
deriving DecidableEq

/-- Outcome of `await self.quality_monitor_task` after `cancel()`:
the task finished normally, raised `asyncio.CancelledError`, or raised some
other exception. -/
inductive AwaitResult
  | finished
  | cancelled
  | failed (msg : String)
deriving DecidableEq

/-- Embedding of `BeyondPresenceAvatarAgent.cleanup`.  The three booleans
say whether `quality_monitor_task`, `avatar_session` and `room` are set;
`task_result`, `avatar_disc` and `room_disc` are the outcomes of the
corresponding awaits.  The `try/except asyncio.CancelledError` around the
task await suppresses only cancellation; any other exception in a step
propagates out of `cleanup` immediately, before the later steps run.  The
result lists the steps that were started, with the exception (if any) that
escaped `cleanup`. -/
def cleanup (has_task : Bool) (task_result : AwaitResult)
    (has_avatar : Bool) (avatar_disc : Except String Unit)
    (has_room : Bool) (room_disc : Except String Unit) :
    List TeardownStep × Except String Unit :=
  let step1 : List TeardownStep × Except String Unit :=
    if has_task then
      ([TeardownStep.cancel_monitor],
       match task_result with
       | .finished => .ok ()
       | .cancelled => .ok ()
       | .failed e => .error e)
    else ([], .ok ())
  match step1.2 with
  | .error e => (step1.1, .error e)
  | .ok _ =>
    let step2 : List TeardownStep × Except String Unit :=
      if has_avatar then ([TeardownStep.avatar_disconnect], avatar_disc)
      else ([], .ok ())
    match step2.2 with
    | .error e => (step1.1 ++ step2.1, .error e)
    | .ok _ =>
      let step3 : List TeardownStep × Except String Unit :=
        if has_room then ([TeardownStep.room_disconnect], room_disc)
        else ([], .ok ())
      (step1.1 ++ step2.1 ++ step3.1, step3.2)

end Agent

/-! ## Helper lemmas -/

/-- A member of a list is a contiguous substring of its comma join. -/
theorem mem_joinComma_isSub (a : String) (l : List String) (h : a ∈ l) :
    a.data <:+: (Agent.joinComma l).data := by
  induction l with
  | nil => cases h
  | cons x t ih =>
    cases t with
    | nil =>
      rw [List.mem_singleton] at h
      subst h
      exact ⟨[], [], by simp [Agent.joinComma]⟩
    | cons y t2 =>
      rcases List.mem_cons.mp h with rfl | hmem
      · exact ⟨[], (", " ++ Agent.joinComma (y :: t2)).data, by
          simp [Agent.joinComma]⟩
      · obtain ⟨s, u, hsu⟩ := ih hmem
        exact ⟨(x ++ ", ").data ++ s, u, by
          simp only [Agent.joinComma, String.data_append, List.append_assoc] at hsu ⊢
          rw [hsu]⟩

/-- Prepending a string preserves substring containment. -/
theorem isSub_append_left (p a m : String) (h : a.data <:+: m.data) :
    a.data <:+: (p ++ m).data := by
  obtain ⟨s, u, hsu⟩ := h
  exact ⟨p.data ++ s, u, by
    simp only [String.data_append, List.append_assoc] at hsu ⊢
    rw [hsu]⟩

/-! ## Claim theorems -/

/-- Claim C1: every utterance containing (case-insensitively) a crisis
keyword classifies to `CONCERNED`, whatever positive keywords it also
contains; in particular `"I feel better but I want to die"`. -/
theorem crisis_keyword_forces_concerned (text : String)
    (h : ∃ k ∈ CRISIS_KEYWORDS, containsSub (strLower text) k = true) :
    classify_sentiment text = .CONCERNED := by
  have hc : CRISIS_KEYWORDS.any (fun keyword => containsSub (strLower text) keyword) = true := by
    rw [List.any_eq_true]
    obtain ⟨k, hk, hck⟩ := h
    exact ⟨k, hk, hck⟩
  simp [classify_sentiment, hc]

/-- Witness for C1 at the utterance of the claim: it contains the positive
keyword `"better"`, yet it classifies to `CONCERNED`, not `ENCOURAGING`. -/
theorem crisis_keyword_forces_concerned_witness :
    classify_sentiment "I feel better but I want to die" = .CONCERNED ∧
    containsSub (strLower "I feel better but I want to die") "better" = true ∧
    EmotionalExpression.CONCERNED ≠ EmotionalExpression.ENCOURAGING :=
  ⟨crisis_keyword_forces_concerned "I feel better but I want to die"
      ⟨"want to die", by decide, by decide⟩,
   by decide, by decide⟩

/-- Claim C9: the expression catalog is total over the enum (it is a total
function by construction, mirroring the exhaustive Python dict) and every
preset's smile intensity and eye openness lie in `[0, 1]` and its eyebrow
position in `[-1, 1]`. -/
theorem presets_total_and_in_range (e : EmotionalExpression) :
    0 ≤ (EXPRESSION_PRESETS e).facial_config.smile_intensity ∧
    (EXPRESSION_PRESETS e).facial_config.smile_intensity ≤ 1 ∧
    0 ≤ (EXPRESSION_PRESETS e).facial_config.eye_openness ∧
    (EXPRESSION_PRESETS e).facial_config.eye_openness ≤ 1 ∧
    -1 ≤ (EXPRESSION_PRESETS e).facial_config.eyebrow_position ∧
    (EXPRESSION_PRESETS e).facial_config.eyebrow_position ≤ 1 := by
  cases e <;>
    refine ⟨?_, ?_, ?_, ?_, ?_, ?_⟩ <;>
    norm_num [EXPRESSION_PRESETS]

/-- Claim C3: after a Quality Monitor tick the animation complexity is
`"low"` exactly when the observed bitrate is below 500 or the observed
frame rate is below 20, and `"high"` otherwise; in particular stats
`(400, 18)` degrade and subsequent stats `(2000, 30)` restore. -/
theorem quality_tick_complexity :
    (∀ (stats : VideoStats) (s : AvatarSessionState),
       (Agent.monitor_tick stats s).animation_quality =
         if stats.bitrate_kbps.getD 2000 < QUALITY_ADAPTATION_CONFIG.bitrate_threshold_low ∨
            stats.fps.getD 30 < QUALITY_ADAPTATION_CONFIG.fps_threshold_low
         then "low" else "high") ∧
    (∀ s : AvatarSessionState,
       (Agent.monitor_tick
          { bitrate_kbps := some 400, fps := some 18, resolution := none,
            packet_loss := none, jitter_ms := none, latency_ms := none } s).animation_quality
         = "low" ∧
       (Agent.monitor_tick
          { bitrate_kbps := some 2000, fps := some 30, resolution := none,
            packet_loss := none, jitter_ms := none, latency_ms := none }
          (Agent.monitor_tick
            { bitrate_kbps := some 400, fps := some 18, resolution := none,
              packet_loss := none, jitter_ms := none, latency_ms := none } s)).animation_quality
         = "high") := by
  have key : ∀ (stats : VideoStats) (s : AvatarSessionState),
      (Agent.monitor_tick stats s).animation_quality =
        if stats.bitrate_kbps.getD 2000 < QUALITY_ADAPTATION_CONFIG.bitrate_threshold_low ∨
           stats.fps.getD 30 < QUALITY_ADAPTATION_CONFIG.fps_threshold_low
        then "low" else "high" := by
    intro stats s
    by_cases h : stats.bitrate_kbps.getD 2000 < QUALITY_ADAPTATION_CONFIG.bitrate_threshold_low ∨
        stats.fps.getD 30 < QUALITY_ADAPTATION_CONFIG.fps_threshold_low
    · simp only [Agent.monitor_tick, AvatarSession.set_animation_quality, if_pos h]
      norm_num [QUALITY_ADAPTATION_CONFIG]
    · simp only [Agent.monitor_tick, AvatarSession.set_animation_quality, if_neg h]
      norm_num
  refine ⟨key, fun s => ⟨?_, ?_⟩⟩
  · rw [key]
    norm_num [QUALITY_ADAPTATION_CONFIG]
  · rw [key]
    norm_num [QUALITY_ADAPTATION_CONFIG]

/-- Claim C2: when a `set_expression` call is applied and a second call with
a different target arrives less than `min_interval` later, the second
request is dropped: the controller state after both calls is the state the
first call produced (`current_expression` is the first target,
`last_expression_change` the first call's time), and no rendering call is
performed for the second request, whatever the session's connected flag. -/
theorem debounce_drops_second_request (st st1 : Agent.ControllerState)
    (d1 d2 : EmotionalExpression) (t1 t2 : ℚ) (connected2 : Bool)
    (hne : d1 ≠ d2)
    (h1 : Agent.set_expression true true st d1 t1 = .ok (st1, true))
    (h2 : t2 - t1 < Agent.min_interval) :
    Agent.set_expression true connected2 st1 d2 t2 = .ok (st1, false) ∧
    st1.current_expression = d1 ∧ st1.last_expression_change = t1 := by
  unfold Agent.set_expression at h1
  simp only [Bool.true_eq_false, if_false] at h1
  split at h1
  · simp at h1
  · simp only [Except.ok.injEq, Prod.mk.injEq] at h1
    obtain ⟨hst, -⟩ := h1
    subst hst
    refine ⟨?_, rfl, rfl⟩
    unfold Agent.set_expression
    simp [h2]

/-- Witness for C2: starting from `NEUTRAL_LISTENING` at time 0, a change to
`CONCERNED` at t = 5 is applied; a change to `ENCOURAGING` at t = 6 (one
second later, below the 3-second minimum interval) is dropped. -/
theorem debounce_drops_second_request_witness :
    Agent.set_expression true true ⟨.CONCERNED, 5⟩ .ENCOURAGING 6 =
      .ok (⟨.CONCERNED, 5⟩, false) ∧
    (⟨.CONCERNED, 5⟩ : Agent.ControllerState).current_expression = .CONCERNED ∧
    (⟨.CONCERNED, 5⟩ : Agent.ControllerState).last_expression_change = 5 :=
  debounce_drops_second_request ⟨.NEUTRAL_LISTENING, 0⟩ ⟨.CONCERNED, 5⟩
    .CONCERNED .ENCOURAGING 5 6 true (by decide)
    (by unfold Agent.set_expression
        norm_num [Agent.min_interval, TRANSITION_CONFIG])
    (by norm_num [Agent.min_interval, TRANSITION_CONFIG])

/-- Counterexample to claim C5: the source's `set_expression` has no
same-state check.  With `current_expression = SUPPORTIVE`, requesting
`SUPPORTIVE` again 10 seconds after the last change performs the
rendering-session call (the `true` flag) and updates
`last_expression_change` from 0 to 10, so a same-state request is neither a
no-op nor exempt from the rate limit. -/
theorem same_state_request_not_noop_ce :
    Agent.set_expression true true ⟨.SUPPORTIVE, 0⟩ .SUPPORTIVE 10 =
      .ok (⟨.SUPPORTIVE, 10⟩, true) ∧
    (⟨.SUPPORTIVE, 10⟩ : Agent.ControllerState) ≠ ⟨.SUPPORTIVE, 0⟩ := by
  constructor
  · unfold Agent.set_expression
    norm_num [Agent.min_interval, TRANSITION_CONFIG]
  · decide

/-- Amended claim C5: a request whose desired state equals
`current_expression` is handled exactly like any other request: it is
dropped (no rendering call, state untouched) when less than `min_interval`
has elapsed, and otherwise the rendering-session call is performed and
`last_expression_change` is updated to the current time
(`current_expression` keeps its value). -/
theorem same_state_request_rate_limited (st : Agent.ControllerState) (t : ℚ) :
    Agent.set_expression true true st st.current_expression t =
      if t - st.last_expression_change < Agent.min_interval then .ok (st, false)
      else .ok ({ current_expression := st.current_expression,
                  last_expression_change := t }, true) := by
  by_cases h : t - st.last_expression_change < Agent.min_interval <;>
    simp [Agent.set_expression, h]

/-- Claim C4: when the text-generation call for a turn raises, the turn does
not fail: it returns normally with the fixed apologetic fallback as the
reply, and the orchestrator's lifecycle stays `Conversing` instead of going
to `Terminated`. -/
theorem generation_failure_keeps_conversing (gen : String → Except String String)
    (sp u e : String) (st : OrchestratorState)
    (hconv : st.lifecycle = .Conversing)
    (hfail : gen (Agent.full_message sp st.history u) = .error e) :
    Agent.conversing_turn gen sp st u =
      .ok ({ st with history := st.history ++ [{ role := "user", content := u }] },
           Agent.FALLBACK_REPLY) ∧
    Agent.lifecycle_after (Agent.conversing_turn gen sp st u) = .Conversing := by
  have hresp : Agent.get_gemini_response gen sp st.history u =
      (st.history ++ [{ role := "user", content := u }], Agent.FALLBACK_REPLY) := by
    unfold Agent.get_gemini_response
    rw [hfail]
  constructor
  · unfold Agent.conversing_turn
    rw [hresp]
  · unfold Agent.conversing_turn
    rw [hresp]
    simpa [Agent.lifecycle_after] using hconv

/-- Witness for C4: a generator that always raises still yields a normal
turn whose reply is the fallback and whose lifecycle is `Conversing`. -/
theorem generation_failure_keeps_conversing_witness :
    Agent.conversing_turn (fun _ => .error "APIError") "You are a counselor."
        ⟨.Conversing, []⟩ "Hello" =
      .ok (⟨.Conversing, [{ role := "user", content := "Hello" }]⟩,
           Agent.FALLBACK_REPLY) ∧
    Agent.lifecycle_after (Agent.conversing_turn (fun _ => .error "APIError")
        "You are a counselor." ⟨.Conversing, []⟩ "Hello") = .Conversing :=
  generation_failure_keeps_conversing (fun _ => .error "APIError")
    "You are a counselor." "Hello" "APIError" ⟨.Conversing, []⟩ rfl rfl

/-- Claim C10: after a failed generation call the history is asymmetric:
the participant utterance was already appended as a user turn (inside the
`try` block, before the call), the fallback reply is not appended, so the
history ends with the user entry and the appended suffix contains no
assistant turn carrying the fallback. -/
theorem failed_turn_history_asymmetric (gen : String → Except String String)
    (sp u e : String) (history : List Agent.Turn)
    (hfail : gen (Agent.full_message sp history u) = .error e) :
    (Agent.get_gemini_response gen sp history u).1 =
      history ++ [{ role := "user", content := u }] ∧
    (Agent.get_gemini_response gen sp history u).1.getLast? =
      some { role := "user", content := u } ∧
    ({ role := "assistant", content := Agent.FALLBACK_REPLY } : Agent.Turn) ∉
      (Agent.get_gemini_response gen sp history u).1.drop history.length ∧
    (Agent.get_gemini_response gen sp history u).1.length = history.length + 1 := by
  have hresp : (Agent.get_gemini_response gen sp history u).1 =
      history ++ [{ role := "user", content := u }] := by
    unfold Agent.get_gemini_response
    rw [hfail]
  refine ⟨hresp, ?_, ?_, ?_⟩ <;> rw [hresp]
  · simp
  · rw [List.drop_left]
    simp [Agent.Turn.mk.injEq]
  · simp

/-- Witness for C10 on an empty prior history. -/
theorem failed_turn_history_asymmetric_witness :
    (Agent.get_gemini_response (fun _ => .error "timeout") "prompt" [] "How are you?").1 =
      [{ role := "user", content := "How are you?" }] ∧
    (Agent.get_gemini_response (fun _ => .error "timeout") "prompt" [] "How are you?").1.getLast? =
      some { role := "user", content := "How are you?" } ∧
    ({ role := "assistant", content := Agent.FALLBACK_REPLY } : Agent.Turn) ∉
      (Agent.get_gemini_response (fun _ => .error "timeout") "prompt" [] "How are you?").1.drop
        ([] : List Agent.Turn).length ∧
    (Agent.get_gemini_response (fun _ => .error "timeout") "prompt" [] "How are you?").1.length =
      ([] : List Agent.Turn).length + 1 :=
  failed_turn_history_asymmetric (fun _ => .error "timeout") "prompt" "How are you?"
    "timeout" [] rfl

/-- Counterexample to claim C6: teardown is not best-effort.  When the
avatar session's `disconnect()` raises, the exception escapes `cleanup`
before the room disconnect, so the room-disconnect step is never attempted. -/
theorem teardown_best_effort_ce :
    (Agent.cleanup true .cancelled true (.error "avatar disconnect failed")
       true (.ok ())).1 =
      [Agent.TeardownStep.cancel_monitor, Agent.TeardownStep.avatar_disconnect] ∧
    Agent.TeardownStep.room_disconnect ∉
      (Agent.cleanup true .cancelled true (.error "avatar disconnect failed")
         true (.ok ())).1 ∧
    (Agent.cleanup true .cancelled true (.error "avatar disconnect failed")
       true (.ok ())).2 = .error "avatar disconnect failed" := by
  refine ⟨rfl, ?_, rfl⟩
  decide

/-- Amended claim C6: teardown performs cancel-and-await of the monitor,
avatar disconnect and room disconnect in that order, and suppresses only
the monitor task's `CancelledError`; any other failure in a step propagates
out of `cleanup` and the remaining steps are skipped. -/
theorem teardown_order_and_cancellation :
    (∀ ht tr ha ad hr rd, List.Sublist (Agent.cleanup ht tr ha ad hr rd).1
       [Agent.TeardownStep.cancel_monitor, Agent.TeardownStep.avatar_disconnect,
        Agent.TeardownStep.room_disconnect]) ∧
    (Agent.cleanup true .cancelled true (.ok ()) true (.ok ()) =
       ([Agent.TeardownStep.cancel_monitor, Agent.TeardownStep.avatar_disconnect,
         Agent.TeardownStep.room_disconnect], .ok ())) ∧
    (∀ e rd, Agent.cleanup true .cancelled true (.error e) true rd =
       ([Agent.TeardownStep.cancel_monitor, Agent.TeardownStep.avatar_disconnect],
        .error e)) ∧
    (∀ e ha ad hr rd, Agent.cleanup true (.failed e) ha ad hr rd =
       ([Agent.TeardownStep.cancel_monitor], .error e)) := by
  refine ⟨?_, rfl, fun e rd => rfl, fun e ha ad hr rd => rfl⟩
  intro ht tr ha ad hr rd
  unfold Agent.cleanup
  rcases ht with _ | _ <;> rcases ha with _ | _ <;> rcases hr with _ | _ <;>
    rcases tr with _ | _ | e1 <;>
    rcases ad with e2 | u2 <;> rcases rd with e3 | u3 <;>
    simp

/-- A session operation other than `disconnect` never changes the
`connected` flag. -/
theorem applyOp_connected (s : AvatarSessionState) (op : SessionOp)
    (h : op ≠ .disconnect_op) : (applyOp s op).connected = s.connected := by
  cases op with
  | set_expr => rfl
  | speak_op => rfl
  | get_stats_op => rfl
  | disconnect_op => exact absurd rfl h
  | set_anim_quality q =>
    simp only [applyOp]
    cases hq : AvatarSession.set_animation_quality s q with
    | ok s' =>
      unfold AvatarSession.set_animation_quality at hq
      split at hq
      · simp only [Except.ok.injEq] at hq
        simp [← hq]
      · cases hq
    | error e => rfl

/-- Running any sequence of non-disconnect operations preserves the
`connected` flag. -/
theorem runOps_connected (ops : List SessionOp) (s : AvatarSessionState)
    (hno : SessionOp.disconnect_op ∉ ops) (hc : s.connected = true) :
    (runOps s ops).connected = true := by
  induction ops generalizing s with
  | nil => exact hc
  | cons op t ih =>
    have hop : op ≠ .disconnect_op := fun he => hno (he ▸ List.mem_cons_self op t)
    have ht : SessionOp.disconnect_op ∉ t := fun hm => hno (List.mem_cons_of_mem op hm)
    have : (applyOp s op).connected = true := by
      rw [applyOp_connected s op hop]; exact hc
    simpa [runOps] using ih (applyOp s op) ht this

/-- Claim C8: before `connect()` succeeds, `set_expression` and `speak`
raise the not-connected error and perform no rendering work; after a
successful `connect()` and before any `disconnect()`, neither raises it. -/
theorem not_connected_guards (s : AvatarSessionState) (ops : List SessionOp)
    (hno : SessionOp.disconnect_op ∉ ops) :
    (s.connected = false →
       AvatarSession.set_expression s = .error "Avatar session not connected" ∧
       AvatarSession.speak s = .error "Avatar session not connected") ∧
    AvatarSession.set_expression (runOps (AvatarSession.connect s) ops) = .ok () ∧
    AvatarSession.speak (runOps (AvatarSession.connect s) ops) = .ok () := by
  have hc : (runOps (AvatarSession.connect s) ops).connected = true :=
    runOps_connected ops (AvatarSession.connect s) hno rfl
  refine ⟨fun h => ⟨?_, ?_⟩, ?_, ?_⟩
  · simp [AvatarSession.set_expression, h]
  · simp [AvatarSession.speak, h]
  · simp [AvatarSession.set_expression, hc]
  · simp [AvatarSession.speak, hc]

/-- Witness for C8: a fresh disconnected session rejects both calls; after
`connect()` and a run of ordinary operations, both calls succeed. -/
theorem not_connected_guards_witness :
    (AvatarSession.set_expression ⟨false, "high"⟩ =
       .error "Avatar session not connected" ∧
     AvatarSession.speak ⟨false, "high"⟩ =
       .error "Avatar session not connected") ∧
    AvatarSession.set_expression (runOps (AvatarSession.connect ⟨false, "high"⟩)
      [.set_expr, .get_stats_op, .set_anim_quality "low", .speak_op]) = .ok () ∧
    AvatarSession.speak (runOps (AvatarSession.connect ⟨false, "high"⟩)
      [.set_expr, .get_stats_op, .set_anim_quality "low", .speak_op]) = .ok () :=
  have h := not_connected_guards ⟨false, "high"⟩
    [.set_expr, .get_stats_op, .set_anim_quality "low", .speak_op] (by decide)
  ⟨h.1 rfl, h.2.1, h.2.2⟩

/-- An agent configuration with two values missing (`ROOM_NAME` absent,
`SESSION_ID` set but empty) and the rest present. -/
def cfgMissing : AgentConfig :=
  { room_name := none, session_id := some "", avatar_id := some "avatar-1",
    avatar_api_key := some "bp-key", system_prompt := some "You are a counselor.",
    livekit_url := some "wss://livekit.example", livekit_api_key := some "lk-key",
    livekit_api_secret := some "lk-secret", google_api_key := some "g-key" }

/-- An agent configuration with every required value present. -/
def cfgFull : AgentConfig :=
  { room_name := some "room-1", session_id := some "sess-1",
    avatar_id := some "avatar-1", avatar_api_key := some "bp-key",
    system_prompt := some "You are a counselor.",
    livekit_url := some "wss://livekit.example", livekit_api_key := some "lk-key",
    livekit_api_secret := some "lk-secret", google_api_key := some "g-key" }

/-- Claim C7: `_validate_config` succeeds exactly when every required value
is present and non-empty; when any is absent or empty it raises a single
`ValueError` whose message is built from the complete list of missing
variable names, so every missing name (not just the first) is in the
message and in the collected list. -/
theorem validate_config_reports_all_missing (c : AgentConfig) :
    (Agent.validate_config c = .ok () ↔
       ∀ kv ∈ Agent.required_vars c, Agent.falsy kv.2 = false) ∧
    (∀ name v, (name, v) ∈ Agent.required_vars c → Agent.falsy v = true →
       Agent.validate_config c =
         .error ("Missing required environment variables: " ++
                 Agent.joinComma (Agent.missing_vars c)) ∧
       name ∈ Agent.missing_vars c ∧
       name.data <:+:
         ("Missing required environment variables: " ++
          Agent.joinComma (Agent.missing_vars c)).data) := by
  have hmissing : ∀ name v, (name, v) ∈ Agent.required_vars c →
      Agent.falsy v = true → name ∈ Agent.missing_vars c := by
    intro name v hmem hf
    unfold Agent.missing_vars
    exact List.mem_map.mpr ⟨(name, v), List.mem_filter.mpr ⟨hmem, hf⟩, rfl⟩
  constructor
  · constructor
    · intro hok kv hkv
      unfold Agent.validate_config at hok
      split at hok
      · next hnil =>
        unfold Agent.missing_vars at hnil
        rw [List.map_eq_nil_iff, List.filter_eq_nil_iff] at hnil
        simpa using hnil kv hkv
      · exact absurd hok (by simp)
    · intro hall
      unfold Agent.validate_config
      have hnil : Agent.missing_vars c = [] := by
        unfold Agent.missing_vars
        rw [List.map_eq_nil_iff, List.filter_eq_nil_iff]
        intro kv hkv
        simp [hall kv hkv]
      rw [if_pos hnil]
  · intro name v hmem hf
    have hin := hmissing name v hmem hf
    have hne : Agent.missing_vars c ≠ [] := by
      intro hnil
      rw [hnil] at hin
      cases hin
    refine ⟨?_, hin, ?_⟩
    · unfold Agent.validate_config
      rw [if_neg hne]
    · exact isSub_append_left _ _ _ (mem_joinComma_isSub name _ hin)

/-- Witness for C7: the full configuration validates; the configuration
missing `ROOM_NAME` and `SESSION_ID` fails with a message naming
`ROOM_NAME` (and, by the same theorem at the other index, `SESSION_ID`). -/
theorem validate_config_reports_all_missing_witness :
    Agent.validate_config cfgFull = .ok () ∧
    Agent.validate_config cfgMissing =
      .error ("Missing required environment variables: " ++
              Agent.joinComma (Agent.missing_vars cfgMissing)) ∧
    "ROOM_NAME" ∈ Agent.missing_vars cfgMissing ∧
    "SESSION_ID" ∈ Agent.missing_vars cfgMissing ∧
    ("ROOM_NAME").data <:+:
      ("Missing required environment variables: " ++
       Agent.joinComma (Agent.missing_vars cfgMissing)).data ∧
    ("SESSION_ID").data <:+:
      ("Missing required environment variables: " ++
       Agent.joinComma (Agent.missing_vars cfgMissing)).data :=
  ⟨(validate_config_reports_all_missing cfgFull).1.mpr (by decide),
   ((validate_config_reports_all_missing cfgMissing).2 "ROOM_NAME" none
      (by decide) (by decide)).1,
   ((validate_config_reports_all_missing cfgMissing).2 "ROOM_NAME" none
      (by decide) (by decide)).2.1,
   ((validate_config_reports_all_missing cfgMissing).2 "SESSION_ID" (some "")
      (by decide) (by decide)).2.1,
   ((validate_config_reports_all_missing cfgMissing).2 "ROOM_NAME" none
      (by decide) (by decide)).2.2,
   ((validate_config_reports_all_missing cfgMissing).2 "SESSION_ID" (some "")
      (by decide) (by decide)).2.2⟩

end AvatarAgent
